import Mathlib

/-!
Shallow embedding of `src/agent.py` (the_nano_gang): a thin tool layer over a
Neo4j knowledge graph for dishwasher troubleshooting.

Modelling choices:
* Neo4j property values seen through the Python driver are modelled by `Value`
  (string, integer, or Python `None`).
* A store row (a Python dict) is an association list with first-match lookup.
* The graph store is a `Store` record of query functions; `exec` answers the
  enumeration queries with raw rows and `execN` answers the traversal query of
  `get_neighbors`, whose fixed RETURN clause shapes its rows as `NRow`.
* Each Python operation becomes a Lean function returning its result as an
  `Except AgentError _` (exceptions) together with the list of queries it
  issued to the store, which makes query counts and parameter binding provable.
* The spec's entity kind `ErrorCode` is the code's label string `"ECode"`
  (pydantic class `ECode`); all label strings below are the code's own.
-/

namespace Agent

/-- A Neo4j property value as seen through the Python driver: a string, an
integer, or Python `None`. -/
inductive Value where
  | str : String → Value
  | int : Int → Value
  | null : Value
  deriving DecidableEq, Repr

/-- A row returned by the store: a string-keyed mapping (Python dict). -/
abbrev Row : Type := List (String × Value)

/-- First-match association lookup: the semantics of a Python dict
(whose keys are unique). -/
def alookup {α : Type} : List (String × α) → String → Option α
  | [], _ => none
  | (k, v) :: rest, key => if k = key then some v else alookup rest key

/-- The exceptions the Python layer can raise or propagate. -/
inductive AgentError where
  | keyError : String → AgentError
  | validationError : AgentError
  | valueError : String → AgentError
  | storeError : String → AgentError
  deriving DecidableEq, Repr

/-- Python `r[k]`: raises `KeyError` when the key is absent. -/
def subscr (r : Row) (k : String) : Except AgentError Value :=
  match alookup r k with
  | some v => Except.ok v
  | none => Except.error (AgentError.keyError k)

/-- Python `r.get(k)`: `None` when the key is absent. -/
def getOpt (r : Row) (k : String) : Value :=
  match alookup r k with
  | some v => v
  | none => Value.null

/-- Pydantic validation of a required `str` field: anything but a string
raises a validation error. -/
def asStr : Value → Except AgentError String
  | Value.str s => Except.ok s
  | _ => Except.error AgentError.validationError

/-- Pydantic validation of an `Optional[str]` field: a string or `None`. -/
def asOptStr : Value → Except AgentError (Option String)
  | Value.str s => Except.ok (some s)
  | Value.null => Except.ok none
  | _ => Except.error AgentError.validationError

/-- Pydantic model `Action` (agent.py lines 19-20). -/
structure Action where
  name : String
  deriving DecidableEq, Repr

/-- Pydantic model `ECode` (lines 22-24); the spec calls this kind ErrorCode. -/
structure ECode where
  code : String
  description : Option String
  deriving DecidableEq, Repr

/-- Pydantic model `ProblemScenario` (lines 26-27). -/
structure ProblemScenario where
  description : String
  deriving DecidableEq, Repr

/-- Pydantic model `Symptom` (lines 29-30). -/
structure Symptom where
  name : String
  deriving DecidableEq, Repr

/-- A query issued to the store: its text and its bound-parameter map. -/
structure Query where
  text : String
  params : List (String × Value)
  deriving DecidableEq, Repr

/-- A row of the traversal query, shaped by its RETURN clause:
`RETURN type(r) AS rel_type, labels(m) AS node_labels, m AS node`. -/
structure NRow where
  rel_type : String
  node_labels : List String
  node : List (String × Value)
  deriving DecidableEq, Repr

/-- A neighbor descriptor as built in `get_neighbors` (lines 89-92):
the neighbor's label set and its property map. -/
structure Neighbor where
  labels : List String
  properties : List (String × Value)
  deriving DecidableEq, Repr

/-- The descriptor built from one traversal row. -/
def toNeighbor (r : NRow) : Neighbor := ⟨r.node_labels, r.node⟩

/-- The abstract graph store reached through the shared connection handle:
either query function may fail, modelling connectivity or query-execution
errors raised inside `graph.query`. -/
structure Store where
  exec : Query → Except AgentError (List Row)
  execN : Query → Except AgentError (List NRow)

/-- A Python list comprehension whose body may raise: it evaluates the body
left to right and stops at the first exception. -/
def listMapE {α β : Type} (f : α → Except AgentError β) : List α → Except AgentError (List β)
  | [] => Except.ok []
  | a :: l =>
    match f a with
    | Except.error e => Except.error e
    | Except.ok b =>
      match listMapE f l with
      | Except.error e => Except.error e
      | Except.ok bs => Except.ok (b :: bs)

/-- `Action(name=r["name"])` — the comprehension body of line 44. -/
def mkAction (r : Row) : Except AgentError Action :=
  match subscr r "name" with
  | Except.error e => Except.error e
  | Except.ok v =>
    match asStr v with
    | Except.error e => Except.error e
    | Except.ok s => Except.ok ⟨s⟩

/-- `ECode(code=r["code"], description=r.get("description"))` — line 50. -/
def mkECode (r : Row) : Except AgentError ECode :=
  match subscr r "code" with
  | Except.error e => Except.error e
  | Except.ok v =>
    match asStr v with
    | Except.error e => Except.error e
    | Except.ok c =>
      match asOptStr (getOpt r "description") with
      | Except.error e => Except.error e
      | Except.ok d => Except.ok ⟨c, d⟩

/-- `ProblemScenario(description=r["description"])` — line 56. -/
def mkProblemScenario (r : Row) : Except AgentError ProblemScenario :=
  match subscr r "description" with
  | Except.error e => Except.error e
  | Except.ok v =>
    match asStr v with
    | Except.error e => Except.error e
    | Except.ok s => Except.ok ⟨s⟩

/-- `Symptom(name=r["name"])` — line 62. -/
def mkSymptom (r : Row) : Except AgentError Symptom :=
  match subscr r "name" with
  | Except.error e => Except.error e
  | Except.ok v =>
    match asStr v with
    | Except.error e => Except.error e
    | Except.ok s => Except.ok ⟨s⟩

/-- The fixed query text of `get_all_actions` (line 42). -/
def actionsQuery : Query := ⟨"MATCH (a:Action) RETURN a.name AS name", []⟩

/-- The fixed query text of `get_all_error_codes` (line 48). -/
def errorCodesQuery : Query :=
  ⟨"MATCH (e:ECode) RETURN e.code AS code, e.description AS description", []⟩

/-- The fixed query text of `get_all_problem_scenarios` (line 54). -/
def problemScenariosQuery : Query :=
  ⟨"MATCH (p:ProblemScenario) RETURN p.description AS description", []⟩

/-- The fixed query text of `get_all_symptoms` (line 60). -/
def symptomsQuery : Query := ⟨"MATCH (s:Symptom) RETURN s.name AS name", []⟩

/-- `Neo4jTool.get_all_actions` (lines 40-44), paired with the queries it
issued; a store failure propagates unmodified. -/
def get_all_actions (st : Store) : Except AgentError (List Action) × List Query :=
  match st.exec actionsQuery with
  | Except.error e => (Except.error e, [actionsQuery])
  | Except.ok rows => (listMapE mkAction rows, [actionsQuery])

/-- `Neo4jTool.get_all_error_codes` (lines 46-50). -/
def get_all_error_codes (st : Store) : Except AgentError (List ECode) × List Query :=
  match st.exec errorCodesQuery with
  | Except.error e => (Except.error e, [errorCodesQuery])
  | Except.ok rows => (listMapE mkECode rows, [errorCodesQuery])

/-- `Neo4jTool.get_all_problem_scenarios` (lines 52-56). -/
def get_all_problem_scenarios (st : Store) :
    Except AgentError (List ProblemScenario) × List Query :=
  match st.exec problemScenariosQuery with
  | Except.error e => (Except.error e, [problemScenariosQuery])
  | Except.ok rows => (listMapE mkProblemScenario rows, [problemScenariosQuery])

/-- `Neo4jTool.get_all_symptoms` (lines 58-62). -/
def get_all_symptoms (st : Store) : Except AgentError (List Symptom) × List Query :=
  match st.exec symptomsQuery with
  | Except.error e => (Except.error e, [symptomsQuery])
  | Except.ok rows => (listMapE mkSymptom rows, [symptomsQuery])

/-- The label-to-key-property dict of `get_neighbors` (lines 70-75); `.get`
on a label outside the dict yields `None`, modelled as `none`. -/
def property_key (label : String) : Option String :=
  if label = "Action" then some "name"
  else if label = "ECode" then some "code"
  else if label = "ProblemScenario" then some "description"
  else if label = "Symptom" then some "name"
  else none

/-- The closed set of recognized label strings, as the code spells them. -/
def recognizedLabels : List String := ["Action", "ECode", "ProblemScenario", "Symptom"]

/-- The traversal query text built by the f-string of lines 80-83: only the
validated label and its key-property name are interpolated; the identifier
appears solely as the bound parameter `$identifier`. -/
def neighborsQueryText (label pk : String) : String :=
  "\n        MATCH (n:" ++ label ++ " \x7b" ++ pk ++
    ": $identifier\x7d)-[r]-(m)\n        RETURN type(r) AS rel_type, labels(m) AS node_labels, m AS node\n        "

/-- The traversal query together with its parameter map (line 84). -/
def neighborsQuery (label pk identifier : String) : Query :=
  ⟨neighborsQueryText label pk, [("identifier", Value.str identifier)]⟩

/-- `neighbors.setdefault(rel_type, []).append(...)` on an insertion-ordered
Python dict: append to an existing group in place, or add a new singleton
group at the end. -/
def addNeighbor : List (String × List Neighbor) → String → Neighbor → List (String × List Neighbor)
  | [], rt, nb => [(rt, [nb])]
  | (k, vs) :: rest, rt, nb =>
    if k = rt then (k, vs ++ [nb]) :: rest
    else (k, vs) :: addNeighbor rest rt nb

/-- One iteration of the grouping loop (lines 87-92). -/
def groupStep (acc : List (String × List Neighbor)) (r : NRow) : List (String × List Neighbor) :=
  addNeighbor acc r.rel_type (toNeighbor r)

/-- The grouping loop of `get_neighbors` (lines 86-93), starting from the
empty dict. -/
def groupNeighbors (rows : List NRow) : List (String × List Neighbor) :=
  rows.foldl groupStep []

/-- `Neo4jTool.get_neighbors` (lines 64-93), paired with the queries it
issued: validate the label, issue one traversal query, group by
relationship type; a store failure propagates unmodified. -/
def get_neighbors (st : Store) (label identifier : String) :
    Except AgentError (List (String × List Neighbor)) × List Query :=
  match property_key label with
  | none => (Except.error (AgentError.valueError ("Unknown label: " ++ label)), [])
  | some pk =>
    match st.execN (neighborsQuery label pk identifier) with
    | Except.error e => (Except.error e, [neighborsQuery label pk identifier])
    | Except.ok rows =>
      (Except.ok (groupNeighbors rows), [neighborsQuery label pk identifier])

/-- `propose_correct_action` (lines 121-123): pure packaging of the given
name into an `Action`, touching no store. -/
def propose_correct_action (correct_action : String) : Action × List Query :=
  (⟨correct_action⟩, [])

/-- A store on which every query returns no rows. -/
def emptyStore : Store := ⟨fun _ => Except.ok [], fun _ => Except.ok []⟩

/-- A store on which every query fails with a connectivity error. -/
def downStore : Store :=
  ⟨fun _ => Except.error (AgentError.storeError "ServiceUnavailable"),
   fun _ => Except.error (AgentError.storeError "ServiceUnavailable")⟩

/-- A store whose one Action row carries an empty-string name. -/
def emptyNameStore : Store :=
  ⟨fun _ => Except.ok [[("name", Value.str "")]], fun _ => Except.ok []⟩

/-- A store holding one well-formed row per entity kind. -/
def goodStore : Store :=
  ⟨fun q =>
     if q = actionsQuery then Except.ok [[("name", Value.str "replace_motor")]]
     else if q = errorCodesQuery then
       Except.ok [[("code", Value.str "E24"), ("description", Value.str "water flow stopped")]]
     else if q = problemScenariosQuery then
       Except.ok [[("description", Value.str "door seal worn")]]
     else Except.ok [[("name", Value.str "leaking water")]],
   fun _ => Except.ok []⟩

/-- The traversal rows of a node with two INDICATES neighbors and one
CAUSED_BY neighbor. -/
def threeRows : List NRow :=
  [⟨"INDICATES", ["ProblemScenario"], [("description", Value.str "door seal worn")]⟩,
   ⟨"INDICATES", ["ProblemScenario"], [("description", Value.str "clogged drain")]⟩,
   ⟨"CAUSED_BY", ["ECode"], [("code", Value.str "E24")]⟩]

/-- A store whose traversal query returns `threeRows`. -/
def threeRowStore : Store :=
  ⟨fun _ => Except.ok [], fun _ => Except.ok threeRows⟩

/-! ### Helper lemmas -/

theorem listMapE_ok_forall {α β : Type} (f : α → Except AgentError β) :
    ∀ (l : List α) (l2 : List β), listMapE f l = Except.ok l2 →
      ∀ a ∈ l, ∃ b, f a = Except.ok b := by
  intro l
  induction l with
  | nil => intro l2 _ a ha; exact absurd ha (List.not_mem_nil a)
  | cons x xs ih =>
    intro l2 h a ha
    unfold listMapE at h
    cases hx : f x with
    | error e => rw [hx] at h; cases h
    | ok b =>
      rw [hx] at h
      cases hxs : listMapE f xs with
      | error e => rw [hxs] at h; cases h
      | ok bs =>
        rcases List.mem_cons.mp ha with h1 | h1
        · exact ⟨b, h1 ▸ hx⟩
        · exact ih bs hxs a h1

theorem mkAction_ok_key (r : Row) (a : Action) (h : mkAction r = Except.ok a) :
    alookup r "name" = some (Value.str a.name) := by
  unfold mkAction subscr at h
  cases hl : alookup r "name" with
  | none => rw [hl] at h; cases h
  | some v =>
    rw [hl] at h
    cases v with
    | str s => simp [asStr] at h; rw [← h]
    | int n => simp [asStr] at h
    | null => simp [asStr] at h

theorem mkECode_ok_key (r : Row) (a : ECode) (h : mkECode r = Except.ok a) :
    alookup r "code" = some (Value.str a.code) := by
  unfold mkECode subscr at h
  cases hl : alookup r "code" with
  | none => rw [hl] at h; cases h
  | some v =>
    rw [hl] at h
    cases v with
    | str s =>
      simp only [asStr] at h
      cases hd : asOptStr (getOpt r "description") with
      | error e => rw [hd] at h; cases h
      | ok d => rw [hd] at h; simp at h; rw [← h]
    | int n => simp [asStr] at h
    | null => simp [asStr] at h

theorem mkProblemScenario_ok_key (r : Row) (a : ProblemScenario)
    (h : mkProblemScenario r = Except.ok a) :
    alookup r "description" = some (Value.str a.description) := by
  unfold mkProblemScenario subscr at h
  cases hl : alookup r "description" with
  | none => rw [hl] at h; cases h
  | some v =>
    rw [hl] at h
    cases v with
    | str s => simp [asStr] at h; rw [← h]
    | int n => simp [asStr] at h
    | null => simp [asStr] at h

theorem mkSymptom_ok_key (r : Row) (a : Symptom) (h : mkSymptom r = Except.ok a) :
    alookup r "name" = some (Value.str a.name) := by
  unfold mkSymptom subscr at h
  cases hl : alookup r "name" with
  | none => rw [hl] at h; cases h
  | some v =>
    rw [hl] at h
    cases v with
    | str s => simp [asStr] at h; rw [← h]
    | int n => simp [asStr] at h
    | null => simp [asStr] at h

theorem property_key_eq_none_iff (label : String) :
    property_key label = none ↔ label ∉ recognizedLabels := by
  constructor
  · intro h hmem
    simp only [recognizedLabels, List.mem_cons, List.not_mem_nil, or_false] at hmem
    rcases hmem with h1 | h1 | h1 | h1 <;> subst h1 <;> simp [property_key] at h
  · intro h
    simp only [recognizedLabels, List.mem_cons, List.not_mem_nil, or_false, not_or] at h
    obtain ⟨h1, h2, h3, h4⟩ := h
    simp [property_key, h1, h2, h3, h4]

theorem property_key_some_mem (label pk : String) (h : property_key label = some pk) :
    label ∈ recognizedLabels := by
  by_contra hc
  rw [(property_key_eq_none_iff label).mpr hc] at h
  cases h

theorem get_neighbors_badlabel (st : Store) (label identifier : String)
    (h : property_key label = none) :
    get_neighbors st label identifier =
      (Except.error (AgentError.valueError ("Unknown label: " ++ label)), []) := by
  unfold get_neighbors
  rw [h]

theorem get_neighbors_of_pk (st : Store) (label identifier pk : String)
    (h : property_key label = some pk) :
    get_neighbors st label identifier =
      match st.execN (neighborsQuery label pk identifier) with
      | Except.error e => (Except.error e, [neighborsQuery label pk identifier])
      | Except.ok rows =>
        (Except.ok (groupNeighbors rows), [neighborsQuery label pk identifier]) := by
  unfold get_neighbors
  rw [h]

theorem get_neighbors_trace_of_pk (st : Store) (label identifier pk : String)
    (h : property_key label = some pk) :
    (get_neighbors st label identifier).2 = [neighborsQuery label pk identifier] := by
  rw [get_neighbors_of_pk st label identifier pk h]
  cases st.execN (neighborsQuery label pk identifier) <;> rfl

theorem get_neighbors_ok_rows (st : Store) (label identifier pk : String)
    (rows : List NRow) (h : property_key label = some pk)
    (hst : st.execN (neighborsQuery label pk identifier) = Except.ok rows) :
    (get_neighbors st label identifier).1 = Except.ok (groupNeighbors rows) := by
  rw [get_neighbors_of_pk st label identifier pk h, hst]

theorem alookup_eq_none_iff {α : Type} (l : List (String × α)) (k : String) :
    alookup l k = none ↔ k ∉ l.map Prod.fst := by
  induction l with
  | nil => simp [alookup]
  | cons p rest ih =>
    obtain ⟨k0, v⟩ := p
    by_cases h : k0 = k
    · subst h; simp [alookup]
    · simp [alookup, h, ih, Ne.symm h]

theorem alookup_addNeighbor (acc : List (String × List Neighbor)) (rt : String)
    (nb : Neighbor) (k : String) :
    alookup (addNeighbor acc rt nb) k =
      if k = rt then some ((alookup acc rt).getD [] ++ [nb]) else alookup acc k := by
  induction acc with
  | nil =>
    by_cases h : k = rt
    · subst h; simp [addNeighbor, alookup]
    · simp [addNeighbor, alookup, h, Ne.symm h]
  | cons p rest ih =>
    obtain ⟨k0, vs⟩ := p
    by_cases h0 : k0 = rt
    · subst h0
      by_cases h : k = k0
      · subst h; simp [addNeighbor, alookup]
      · simp [addNeighbor, alookup, h, Ne.symm h]
    · by_cases h : k = k0
      · subst h
        simp [addNeighbor, alookup, h0, Ne.symm h0]
      · simp [addNeighbor, alookup, h0, Ne.symm h, ih]

/-- Append on an optional group: the effect of a run of the grouping loop on
one dict entry. -/
def oapp (o : Option (List Neighbor)) (l : List Neighbor) : Option (List Neighbor) :=
  match o with
  | some vs => some (vs ++ l)
  | none => if l = [] then none else some l

theorem oapp_nil (o : Option (List Neighbor)) : oapp o [] = o := by
  cases o <;> simp [oapp]

theorem oapp_single (o : Option (List Neighbor)) (nb : Neighbor) :
    oapp o [nb] = some (o.getD [] ++ [nb]) := by
  cases o <;> simp [oapp]

theorem oapp_oapp (o : Option (List Neighbor)) (l1 l2 : List Neighbor) :
    oapp (oapp o l1) l2 = oapp o (l1 ++ l2) := by
  cases o with
  | some vs => simp [oapp]
  | none =>
    by_cases h1 : l1 = []
    · subst h1; simp [oapp]
    · by_cases h2 : l2 = [] <;> simp [oapp, h1, h2]

theorem alookup_foldl_groupStep (rows : List NRow) :
    ∀ (acc : List (String × List Neighbor)) (rt : String),
      alookup (rows.foldl groupStep acc) rt =
        oapp (alookup acc rt) ((rows.filter fun r => r.rel_type == rt).map toNeighbor) := by
  induction rows with
  | nil => intro acc rt; simp [oapp_nil]
  | cons r rs ih =>
    intro acc rt
    rw [List.foldl_cons, ih]
    by_cases h : r.rel_type = rt
    · have hstep : alookup (groupStep acc r) rt = oapp (alookup acc rt) [toNeighbor r] := by
        unfold groupStep
        rw [alookup_addNeighbor, if_pos h.symm, h, oapp_single]
      rw [hstep, oapp_oapp]
      have hf : (r :: rs).filter (fun x => x.rel_type == rt) =
          r :: rs.filter (fun x => x.rel_type == rt) := by
        simp [List.filter_cons, h]
      rw [hf]
      rfl
    · have hstep : alookup (groupStep acc r) rt = alookup acc rt := by
        unfold groupStep
        rw [alookup_addNeighbor, if_neg (fun hc => h hc.symm)]
      rw [hstep]
      have hf : (r :: rs).filter (fun x => x.rel_type == rt) =
          rs.filter (fun x => x.rel_type == rt) := by
        simp [List.filter_cons, h]
      rw [hf]

theorem alookup_groupNeighbors (rows : List NRow) (rt : String) :
    alookup (groupNeighbors rows) rt =
      oapp none ((rows.filter fun r => r.rel_type == rt).map toNeighbor) := by
  unfold groupNeighbors
  rw [alookup_foldl_groupStep]
  rfl

theorem filter_rel_ne_nil_iff (rows : List NRow) (rt : String) :
    (rows.filter fun r => r.rel_type == rt) ≠ [] ↔ rt ∈ rows.map NRow.rel_type := by
  rw [Ne, List.filter_eq_nil_iff]
  simp only [beq_iff_eq, List.mem_map, not_forall]
  constructor
  · rintro ⟨r, hr, hrt⟩
    rw [not_not] at hrt
    exact ⟨r, hr, hrt⟩
  · rintro ⟨r, hr, hrt⟩
    exact ⟨r, hr, by rw [not_not]; exact hrt⟩

theorem alookup_groupNeighbors_of_ne_nil (rows : List NRow) (rt : String)
    (h : (rows.filter fun r => r.rel_type == rt) ≠ []) :
    alookup (groupNeighbors rows) rt =
      some ((rows.filter fun r => r.rel_type == rt).map toNeighbor) := by
  rw [alookup_groupNeighbors]
  unfold oapp
  rw [if_neg]
  simp [h]

theorem mem_keys_groupNeighbors (rows : List NRow) (rt : String) :
    rt ∈ (groupNeighbors rows).map Prod.fst ↔ rt ∈ rows.map NRow.rel_type := by
  rw [← filter_rel_ne_nil_iff]
  constructor
  · intro hmem hf
    have h0 : alookup (groupNeighbors rows) rt = none := by
      rw [alookup_groupNeighbors, hf]
      rfl
    exact (alookup_eq_none_iff _ rt).mp h0 hmem
  · intro hf
    by_contra hmem
    have h0 := (alookup_eq_none_iff (groupNeighbors rows) rt).mpr hmem
    rw [alookup_groupNeighbors_of_ne_nil rows rt hf] at h0
    cases h0

theorem addNeighbor_forall_ne_nil (acc : List (String × List Neighbor)) (rt : String)
    (nb : Neighbor) (h : ∀ p ∈ acc, p.2 ≠ []) :
    ∀ p ∈ addNeighbor acc rt nb, p.2 ≠ [] := by
  induction acc with
  | nil =>
    intro p hp
    simp only [addNeighbor, List.mem_singleton] at hp
    subst hp
    simp
  | cons q rest ih =>
    obtain ⟨k0, vs⟩ := q
    by_cases h0 : k0 = rt
    · subst h0
      intro p hp
      simp only [addNeighbor, if_true, eq_self_iff_true, List.mem_cons] at hp
      rcases hp with hp | hp
      · subst hp; simp
      · exact h p (List.mem_cons_of_mem _ hp)
    · intro p hp
      simp only [addNeighbor, if_neg h0, List.mem_cons] at hp
      rcases hp with hp | hp
      · subst hp; exact h _ (List.mem_cons_self _ _)
      · exact ih (fun q hq => h q (List.mem_cons_of_mem _ hq)) p hp

theorem groupNeighbors_forall_ne_nil (rows : List NRow) :
    ∀ p ∈ groupNeighbors rows, p.2 ≠ [] := by
  unfold groupNeighbors
  have hgen : ∀ (rs : List NRow) (acc : List (String × List Neighbor)),
      (∀ p ∈ acc, p.2 ≠ []) → ∀ p ∈ rs.foldl groupStep acc, p.2 ≠ [] := by
    intro rs
    induction rs with
    | nil => intro acc hacc; simpa using hacc
    | cons r rest ih =>
      intro acc hacc
      rw [List.foldl_cons]
      exact ih _ (addNeighbor_forall_ne_nil acc r.rel_type (toNeighbor r) hacc)
  exact hgen rows [] (by intro p hp; cases hp)

/-! ### Claim theorems -/

/-- C1: for every recognized entity kind and identifier, when the traversal
query the call issues returns no rows (no node matches the identifier, or the
node has no edges), `get_neighbors` returns the empty mapping and raises no
error.  The spec kind ErrorCode is the code's label string "ECode". -/
theorem getNeighbors_empty_on_no_rows (st : Store) (label identifier : String)
    (hl : label ∈ recognizedLabels)
    (hst : ∀ pk, property_key label = some pk →
      st.execN (neighborsQuery label pk identifier) = Except.ok []) :
    (get_neighbors st label identifier).1 = Except.ok [] := by
  simp only [recognizedLabels, List.mem_cons, List.not_mem_nil, or_false] at hl
  rcases hl with h | h | h | h <;> subst h
  · have hpk : property_key "Action" = some "name" := by decide
    rw [get_neighbors_ok_rows st _ identifier _ [] hpk (hst "name" hpk)]; rfl
  · have hpk : property_key "ECode" = some "code" := by decide
    rw [get_neighbors_ok_rows st _ identifier _ [] hpk (hst "code" hpk)]; rfl
  · have hpk : property_key "ProblemScenario" = some "description" := by decide
    rw [get_neighbors_ok_rows st _ identifier _ [] hpk (hst "description" hpk)]; rfl
  · have hpk : property_key "Symptom" = some "name" := by decide
    rw [get_neighbors_ok_rows st _ identifier _ [] hpk (hst "name" hpk)]; rfl

/-- C1 witness: on a store with no node of code "E24", the ErrorCode kind
(label "ECode") yields the empty mapping. -/
theorem getNeighbors_empty_on_no_rows_witness :
    (get_neighbors emptyStore "ECode" "E24").1 = Except.ok [] :=
  getNeighbors_empty_on_no_rows emptyStore "ECode" "E24" (by decide)
    (fun _ _ => rfl)

/-- C2: for every label outside the four recognized kinds and every
identifier, including the empty string, `get_neighbors` raises the explicit
unknown-label `ValueError` and never returns a mapping. -/
theorem getNeighbors_unknown_label_raises (st : Store) (label identifier : String)
    (hl : label ∉ recognizedLabels) :
    (get_neighbors st label identifier).1 =
      Except.error (AgentError.valueError ("Unknown label: " ++ label)) ∧
    ∀ g, (get_neighbors st label identifier).1 ≠ Except.ok g := by
  rw [get_neighbors_badlabel st label identifier ((property_key_eq_none_iff label).mpr hl)]
  exact ⟨rfl, fun g hg => by cases hg⟩

/-- C2 witness: an unrecognized label with the empty identifier raises. -/
theorem getNeighbors_unknown_label_raises_witness :
    (get_neighbors emptyStore "Machine" "").1 =
      Except.error (AgentError.valueError "Unknown label: Machine") :=
  (getNeighbors_unknown_label_raises emptyStore "Machine" "" (by decide)).1

/-- C6: converting a store row to a typed record raises a data-shape error
(`KeyError` on the natural-key field) when the row lacks the kind's
natural-key field, for each of the four kinds; a row missing only the
optional description field yields an ECode record with a null description. -/
theorem toRecord_shape_errors (r : Row) :
    (alookup r "name" = none → mkAction r = Except.error (AgentError.keyError "name")) ∧
    (alookup r "code" = none → mkECode r = Except.error (AgentError.keyError "code")) ∧
    (alookup r "description" = none →
      mkProblemScenario r = Except.error (AgentError.keyError "description")) ∧
    (alookup r "name" = none → mkSymptom r = Except.error (AgentError.keyError "name")) ∧
    (∀ s, alookup r "code" = some (Value.str s) → alookup r "description" = none →
      mkECode r = Except.ok (ECode.mk s none)) := by
  refine ⟨fun h => ?_, fun h => ?_, fun h => ?_, fun h => ?_, fun s h1 h2 => ?_⟩
  · unfold mkAction subscr; rw [h]
  · unfold mkECode subscr; rw [h]
  · unfold mkProblemScenario subscr; rw [h]
  · unfold mkSymptom subscr; rw [h]
  · unfold mkECode subscr getOpt; rw [h1, h2]; rfl

/-- C6 witness: a row without "code" raises; a row with only "code" yields a
record whose description is null. -/
theorem toRecord_shape_errors_witness :
    mkECode [("description", Value.str "heat pump fault")] =
      Except.error (AgentError.keyError "code") ∧
    mkECode [("code", Value.str "E24")] = Except.ok (ECode.mk "E24" none) :=
  ⟨(toRecord_shape_errors _).2.1 (by decide),
   (toRecord_shape_errors _).2.2.2.2 "E24" (by decide) (by decide)⟩

/-- C7: `propose_correct_action` returns an Action record carrying exactly
the given name, issues no query to the store, and does so for every input
string (no validation against the existing action list); in particular on
"replace_motor". -/
theorem proposeAction_pure_packaging (s : String) :
    (propose_correct_action s).1 = Action.mk s ∧
    (propose_correct_action s).2 = [] ∧
    propose_correct_action "replace_motor" = (Action.mk "replace_motor", []) :=
  ⟨rfl, rfl, rfl⟩

/-- C10: on an unrecognized label the unknown-label error is raised before
the store is contacted: the list of issued queries is empty. -/
theorem unknown_label_no_store_contact (st : Store) (label identifier : String)
    (h : property_key label = none) :
    (get_neighbors st label identifier).2 = [] ∧
    (get_neighbors st label identifier).1 =
      Except.error (AgentError.valueError ("Unknown label: " ++ label)) := by
  rw [get_neighbors_badlabel st label identifier h]
  exact ⟨rfl, rfl⟩

/-- C10 witness: a bad label on a live store issues zero queries. -/
theorem unknown_label_no_store_contact_witness :
    (get_neighbors threeRowStore "Part" "x").2 = [] :=
  (unknown_label_no_store_contact threeRowStore "Part" "x" (by decide)).1

/-- C3: when the traversal rows span exactly two relationship types R1 (two
rows) and R2 (one row), the returned mapping has exactly the keys R1 and R2,
each group is the store-ordered list of descriptors of its own rows, and the
groups have lengths 2 and 1. -/
theorem getNeighbors_groups_by_rel_type (st : Store) (label identifier pk R1 R2 : String)
    (rows : List NRow) (g : List (String × List Neighbor))
    (hpk : property_key label = some pk)
    (hst : st.execN (neighborsQuery label pk identifier) = Except.ok rows)
    (hg : (get_neighbors st label identifier).1 = Except.ok g)
    (hne : R1 ≠ R2)
    (hall : ∀ r ∈ rows, r.rel_type = R1 ∨ r.rel_type = R2)
    (h1 : (rows.filter fun r => r.rel_type == R1).length = 2)
    (h2 : (rows.filter fun r => r.rel_type == R2).length = 1) :
    (∀ rt, rt ∈ g.map Prod.fst ↔ (rt = R1 ∨ rt = R2)) ∧
    (alookup g R1 = some ((rows.filter fun r => r.rel_type == R1).map toNeighbor) ∧
      ∀ l, alookup g R1 = some l → l.length = 2) ∧
    (alookup g R2 = some ((rows.filter fun r => r.rel_type == R2).map toNeighbor) ∧
      ∀ l, alookup g R2 = some l → l.length = 1) := by
  have hgeq : g = groupNeighbors rows := by
    rw [get_neighbors_ok_rows st label identifier pk rows hpk hst] at hg
    exact (Except.ok.inj hg).symm
  subst hgeq
  have hf1ne : (rows.filter fun r => r.rel_type == R1) ≠ [] := by
    intro hnil; rw [hnil] at h1; cases h1
  have hf2ne : (rows.filter fun r => r.rel_type == R2) ≠ [] := by
    intro hnil; rw [hnil] at h2; cases h2
  have hl1 := alookup_groupNeighbors_of_ne_nil rows R1 hf1ne
  have hl2 := alookup_groupNeighbors_of_ne_nil rows R2 hf2ne
  refine ⟨?_, ⟨hl1, ?_⟩, ⟨hl2, ?_⟩⟩
  · intro rt
    rw [mem_keys_groupNeighbors]
    constructor
    · intro hmem
      rcases List.mem_map.mp hmem with ⟨r, hr, hrt⟩
      subst hrt
      exact hall r hr
    · rintro (h | h) <;> subst h <;> rw [← filter_rel_ne_nil_iff]
      · exact hf1ne
      · exact hf2ne
  · intro l hl
    rw [hl1] at hl
    rw [← Option.some.inj hl, List.length_map]
    exact h1
  · intro l hl
    rw [hl2] at hl
    rw [← Option.some.inj hl, List.length_map]
    exact h2

/-- C3 witness: two INDICATES rows and one CAUSED_BY row, through the full
`get_neighbors` call on a concrete store. -/
theorem getNeighbors_groups_by_rel_type_witness :
    alookup (groupNeighbors threeRows) "INDICATES" =
      some ((threeRows.filter fun r => r.rel_type == "INDICATES").map toNeighbor) ∧
    ("CAUSED_BY" ∈ (groupNeighbors threeRows).map Prod.fst ↔
      ("CAUSED_BY" = "INDICATES" ∨ "CAUSED_BY" = "CAUSED_BY")) := by
  have h := getNeighbors_groups_by_rel_type threeRowStore "Symptom" "leaking water" "name"
    "INDICATES" "CAUSED_BY" threeRows (groupNeighbors threeRows)
    (by decide) rfl rfl (by decide) (by decide) (by decide) (by decide)
  exact ⟨h.2.1.1, h.1 "CAUSED_BY"⟩

/-- C4: every relationship-type entry of the mapping returned by
`get_neighbors` holds a non-empty group, and an empty row sequence yields the
empty mapping. -/
theorem getNeighbors_groups_nonempty (st : Store) (label identifier pk : String)
    (rows : List NRow) (g : List (String × List Neighbor))
    (hpk : property_key label = some pk)
    (hst : st.execN (neighborsQuery label pk identifier) = Except.ok rows)
    (hg : (get_neighbors st label identifier).1 = Except.ok g) :
    (∀ p ∈ g, p.2 ≠ []) ∧ (rows = [] → g = []) := by
  have hgeq : g = groupNeighbors rows := by
    rw [get_neighbors_ok_rows st label identifier pk rows hpk hst] at hg
    exact (Except.ok.inj hg).symm
  subst hgeq
  refine ⟨groupNeighbors_forall_ne_nil rows, fun h => ?_⟩
  rw [h]
  rfl

/-- C4 witness: the CAUSED_BY entry of the concrete grouped result is
non-empty. -/
theorem getNeighbors_groups_nonempty_witness :
    ("CAUSED_BY", [Neighbor.mk ["ECode"] [("code", Value.str "E24")]]).2 ≠ [] :=
  (getNeighbors_groups_nonempty threeRowStore "Symptom" "leaking water" "name" threeRows
    (groupNeighbors threeRows) (by decide) rfl rfl).1 _ (by decide)

/-- C5 counterexample: the claim also demands a non-EMPTY natural key, but on
a store whose Action row carries an empty-string name, `get_all_actions`
returns a record whose natural key is the empty string (pydantic only checks
that the value is a string). -/
theorem enumeration_key_nonempty_cex :
    (get_all_actions emptyNameStore).1 = Except.ok [Action.mk ""] ∧
    (Action.mk "").name = "" :=
  ⟨rfl, rfl⟩

/-- C5 (amended): whenever an enumeration operation returns records, every
row the store returned carried a string — hence non-null — value at the
kind's natural-key field (a missing or null key raises instead); emptiness of
the string is not checked. -/
theorem enumeration_key_nonnull (st : Store)
    (rowsA rowsE rowsP rowsS : List Row)
    (recsA : List Action) (recsE : List ECode)
    (recsP : List ProblemScenario) (recsS : List Symptom)
    (hA : st.exec actionsQuery = Except.ok rowsA)
    (hA2 : (get_all_actions st).1 = Except.ok recsA)
    (hE : st.exec errorCodesQuery = Except.ok rowsE)
    (hE2 : (get_all_error_codes st).1 = Except.ok recsE)
    (hP : st.exec problemScenariosQuery = Except.ok rowsP)
    (hP2 : (get_all_problem_scenarios st).1 = Except.ok recsP)
    (hS : st.exec symptomsQuery = Except.ok rowsS)
    (hS2 : (get_all_symptoms st).1 = Except.ok recsS) :
    (∀ r ∈ rowsA, ∃ s, alookup r "name" = some (Value.str s)) ∧
    (∀ r ∈ rowsE, ∃ s, alookup r "code" = some (Value.str s)) ∧
    (∀ r ∈ rowsP, ∃ s, alookup r "description" = some (Value.str s)) ∧
    (∀ r ∈ rowsS, ∃ s, alookup r "name" = some (Value.str s)) := by
  refine ⟨fun r hr => ?_, fun r hr => ?_, fun r hr => ?_, fun r hr => ?_⟩
  · unfold get_all_actions at hA2
    rw [hA] at hA2
    obtain ⟨a, ha⟩ := listMapE_ok_forall mkAction rowsA recsA hA2 r hr
    exact ⟨a.name, mkAction_ok_key r a ha⟩
  · unfold get_all_error_codes at hE2
    rw [hE] at hE2
    obtain ⟨a, ha⟩ := listMapE_ok_forall mkECode rowsE recsE hE2 r hr
    exact ⟨a.code, mkECode_ok_key r a ha⟩
  · unfold get_all_problem_scenarios at hP2
    rw [hP] at hP2
    obtain ⟨a, ha⟩ := listMapE_ok_forall mkProblemScenario rowsP recsP hP2 r hr
    exact ⟨a.description, mkProblemScenario_ok_key r a ha⟩
  · unfold get_all_symptoms at hS2
    rw [hS] at hS2
    obtain ⟨a, ha⟩ := listMapE_ok_forall mkSymptom rowsS recsS hS2 r hr
    exact ⟨a.name, mkSymptom_ok_key r a ha⟩

/-- C5 witness: on a store with one well-formed row per kind, the returned
rows carry string natural keys. -/
theorem enumeration_key_nonnull_witness :
    (∃ s, alookup [("name", Value.str "replace_motor")] "name" = some (Value.str s)) ∧
    (∃ s, alookup [("code", Value.str "E24"), ("description", Value.str "water flow stopped")]
      "code" = some (Value.str s)) := by
  have h := enumeration_key_nonnull goodStore
    [[("name", Value.str "replace_motor")]]
    [[("code", Value.str "E24"), ("description", Value.str "water flow stopped")]]
    [[("description", Value.str "door seal worn")]]
    [[("name", Value.str "leaking water")]]
    [Action.mk "replace_motor"] [ECode.mk "E24" (some "water flow stopped")]
    [ProblemScenario.mk "door seal worn"] [Symptom.mk "leaking water"]
    rfl rfl rfl rfl rfl rfl rfl rfl
  exact ⟨h.1 _ (by decide), h.2.1 _ (by decide)⟩

/-- C8: the traversal query text depends only on the label, never on the
identifier or the store; the identifier is passed solely as the bound
parameter `identifier`; and a query is issued only after the label passed
validation against the closed four-kind enumeration. -/
theorem neighbors_query_independent_of_identifier (st st2 : Store) (label id1 id2 : String) :
    ((get_neighbors st label id1).2.map Query.text =
      (get_neighbors st2 label id2).2.map Query.text) ∧
    (∀ q ∈ (get_neighbors st label id1).2, q.params = [("identifier", Value.str id1)]) ∧
    ((get_neighbors st label id1).2 ≠ [] → label ∈ recognizedLabels) := by
  cases hpk : property_key label with
  | none =>
    rw [get_neighbors_badlabel st label id1 hpk, get_neighbors_badlabel st2 label id2 hpk]
    refine ⟨rfl, fun q hq => absurd hq (List.not_mem_nil q), fun h => absurd rfl h⟩
  | some pk =>
    rw [get_neighbors_trace_of_pk st label id1 pk hpk,
        get_neighbors_trace_of_pk st2 label id2 pk hpk]
    refine ⟨rfl, fun q hq => ?_, fun _ => property_key_some_mem label pk hpk⟩
    rw [List.mem_singleton] at hq
    subst hq
    rfl

/-- C8 witness: same query text for two identifiers on two stores; the
identifier sits only in the parameter map. -/
theorem neighbors_query_independent_witness :
    (get_neighbors emptyStore "Action" "a").2.map Query.text =
      (get_neighbors downStore "Action" "b").2.map Query.text ∧
    (neighborsQuery "Action" "name" "a").params = [("identifier", Value.str "a")] := by
  have h := neighbors_query_independent_of_identifier emptyStore downStore "Action" "a" "b"
  exact ⟨h.1, h.2.1 (neighborsQuery "Action" "name" "a") (by decide)⟩

/-- C9: each enumeration operation, and `get_neighbors` on a recognized
label, issues exactly one query; a store failure is propagated to the caller
unmodified, with no retry and no substituted default. -/
theorem single_query_and_error_propagation (st : Store) (label identifier pk : String)
    (hpk : property_key label = some pk) :
    ((get_all_actions st).2.length = 1 ∧
     (get_all_error_codes st).2.length = 1 ∧
     (get_all_problem_scenarios st).2.length = 1 ∧
     (get_all_symptoms st).2.length = 1 ∧
     (get_neighbors st label identifier).2.length = 1) ∧
    ((∀ e, st.exec actionsQuery = Except.error e → (get_all_actions st).1 = Except.error e) ∧
     (∀ e, st.exec errorCodesQuery = Except.error e →
       (get_all_error_codes st).1 = Except.error e) ∧
     (∀ e, st.exec problemScenariosQuery = Except.error e →
       (get_all_problem_scenarios st).1 = Except.error e) ∧
     (∀ e, st.exec symptomsQuery = Except.error e → (get_all_symptoms st).1 = Except.error e) ∧
     (∀ e, st.execN (neighborsQuery label pk identifier) = Except.error e →
       (get_neighbors st label identifier).1 = Except.error e)) := by
  constructor
  · refine ⟨?_, ?_, ?_, ?_, ?_⟩
    · unfold get_all_actions; cases st.exec actionsQuery <;> rfl
    · unfold get_all_error_codes; cases st.exec errorCodesQuery <;> rfl
    · unfold get_all_problem_scenarios; cases st.exec problemScenariosQuery <;> rfl
    · unfold get_all_symptoms; cases st.exec symptomsQuery <;> rfl
    · rw [get_neighbors_trace_of_pk st label identifier pk hpk]; rfl
  · refine ⟨fun e he => ?_, fun e he => ?_, fun e he => ?_, fun e he => ?_, fun e he => ?_⟩
    · unfold get_all_actions; rw [he]
    · unfold get_all_error_codes; rw [he]
    · unfold get_all_problem_scenarios; rw [he]
    · unfold get_all_symptoms; rw [he]
    · rw [get_neighbors_of_pk st label identifier pk hpk, he]

/-- C9 witness: on a down store, one query is issued and the connectivity
error comes back unmodified. -/
theorem single_query_and_error_propagation_witness :
    (get_all_actions downStore).2.length = 1 ∧
    (get_all_actions downStore).1 =
      Except.error (AgentError.storeError "ServiceUnavailable") ∧
    (get_neighbors downStore "Symptom" "leaking water").1 =
      Except.error (AgentError.storeError "ServiceUnavailable") := by
  have h := single_query_and_error_propagation downStore "Symptom" "leaking water" "name"
    (by decide)
  exact ⟨h.1.1, h.2.1 _ rfl, h.2.2.2.2.2 _ rfl⟩

end Agent
